import Mathlib

/-!
Verification development for python-spidev2 (src/spidev2/linux_spidev.py and
src/spidev2/__init__.py).  The Python code is shallowly embedded: pure helpers
become Lean functions, ctypes machine integers become `Nat` with explicit
`% 2^w` truncation where the ctypes field width matters, and Python exceptions
become `Except` errors.
-/

namespace Spidev2

/-! ## Ioctl request encoding

Model of the `ioctl_opt` encoder used by `linux_spidev.py` (`IOW`/`IOR`),
which replicates the asm-generic Linux ioctl numbering scheme: 8 bits of
command number, 8 bits of magic ("type"), 14 bits of payload size and 2 bits
of direction, packed in that order from the low bits.  The four fields occupy
disjoint bit ranges, so the bitwise ors of the source are sums of shifted
fields; the encoder asserts each field fits its range and fails loudly
(AssertionError) otherwise, modelled as `Option.none`. -/

def IOC_NONE : Nat := 0

def IOC_WRITE : Nat := 1

def IOC_READ : Nat := 2

def IOC_NRBITS : Nat := 8

def IOC_TYPEBITS : Nat := 8

def IOC_SIZEBITS : Nat := 14

def IOC_DIRBITS : Nat := 2

def IOC_NRMASK : Nat := 2 ^ IOC_NRBITS - 1

def IOC_TYPEMASK : Nat := 2 ^ IOC_TYPEBITS - 1

def IOC_SIZEMASK : Nat := 2 ^ IOC_SIZEBITS - 1

def IOC_DIRMASK : Nat := 2 ^ IOC_DIRBITS - 1

def IOC_NRSHIFT : Nat := 0

def IOC_TYPESHIFT : Nat := IOC_NRSHIFT + IOC_NRBITS

def IOC_SIZESHIFT : Nat := IOC_TYPESHIFT + IOC_TYPEBITS

def IOC_DIRSHIFT : Nat := IOC_SIZESHIFT + IOC_SIZEBITS

def IOC (dir typ nr size : Nat) : Option Nat :=
  if dir ≤ IOC_DIRMASK ∧ typ ≤ IOC_TYPEMASK ∧ nr ≤ IOC_NRMASK ∧
      size ≤ IOC_SIZEMASK then
    some (dir * 2 ^ IOC_DIRSHIFT + size * 2 ^ IOC_SIZESHIFT +
      typ * 2 ^ IOC_TYPESHIFT + nr * 2 ^ IOC_NRSHIFT)
  else
    none

def IOW (typ nr size : Nat) : Option Nat := IOC IOC_WRITE typ nr size

def IOR (typ nr size : Nat) : Option Nat := IOC IOC_READ typ nr size

/-- Extract the command-number field of a request code. -/
def ioc_nr (code : Nat) : Nat := code / 2 ^ IOC_NRSHIFT % 2 ^ IOC_NRBITS

/-- Extract the magic-byte ("type") field of a request code. -/
def ioc_type (code : Nat) : Nat := code / 2 ^ IOC_TYPESHIFT % 2 ^ IOC_TYPEBITS

/-- Extract the payload-size field of a request code. -/
def ioc_size (code : Nat) : Nat := code / 2 ^ IOC_SIZESHIFT % 2 ^ IOC_SIZEBITS

/-- Extract the direction field of a request code. -/
def ioc_dir (code : Nat) : Nat := code / 2 ^ IOC_DIRSHIFT % 2 ^ IOC_DIRBITS

/-! ## linux_spidev.py -/

/-- `_SPI_IOC_MAGIC = ord(b'k')` -/
def SPI_IOC_MAGIC : Nat := 107

/-- `SPI_MODE_USER_MASK = (1 << 16) - 1` -/
def SPI_MODE_USER_MASK : Nat := 2 ^ 16 - 1

/-- The sixteen mode flag bits defined by `SPIMode32`
(`SPI_CPHA = 1 <<< 0` through `SPI_3WIRE_HIZ = 1 <<< 15`). -/
def SPIMode32_flags : List Nat :=
  [1, 2, 4, 8, 16, 32, 64, 128, 256, 512, 1024, 2048, 4096, 8192, 16384, 32768]

/-! ### ctypes structure layout

`spi_ioc_transfer` is a `ctypes.Structure` with native alignment.  The layout
computation below is the standard C struct rule ctypes implements: each field
is placed at the next offset aligned to its own alignment, and the total size
is the end offset rounded up to the largest field alignment.  Field widths and
alignments on a 64-bit platform: `c_uint64` is (8, 8), `c_uint32` is (4, 4),
`c_uint16` is (2, 2), `c_uint8` is (1, 1). -/

def alignUp (n a : Nat) : Nat := if a = 0 then n else (n + a - 1) / a * a

/-- `(name, size, alignment)` of each field of `spi_ioc_transfer`, in source
declaration order. -/
def spi_ioc_transfer_fields : List (String × Nat × Nat) :=
  [("tx_buf", 8, 8),
   ("rx_buf", 8, 8),
   ("len", 4, 4),
   ("speed_hz", 4, 4),
   ("delay_usecs", 2, 2),
   ("bits_per_word", 1, 1),
   ("cs_change", 1, 1),
   ("tx_nbits", 1, 1),
   ("rx_nbits", 1, 1),
   ("word_delay_usecs", 1, 1),
   ("pad", 1, 1)]

def layoutOffsets : Nat → List (String × Nat × Nat) → List (String × Nat)
  | _, [] => []
  | pos, (nm, sz, al) :: rest =>
      (nm, alignUp pos al) :: layoutOffsets (alignUp pos al + sz) rest

def structEnd : Nat → List (String × Nat × Nat) → Nat
  | pos, [] => pos
  | pos, (_, sz, al) :: rest => structEnd (alignUp pos al + sz) rest

def maxAlign (fields : List (String × Nat × Nat)) : Nat :=
  fields.foldl (fun m f => max m f.2.2) 1

def structSize (fields : List (String × Nat × Nat)) : Nat :=
  alignUp (structEnd 0 fields) (maxAlign fields)

/-- `ctypes.sizeof(spi_ioc_transfer)`. -/
def spi_ioc_transfer_size : Nat := structSize spi_ioc_transfer_fields

/-- The value store of one `spi_ioc_transfer` record.  Each field holds the
truncated value its ctypes width enforces. -/
structure spi_ioc_transfer where
  tx_buf : Nat
  rx_buf : Nat
  len : Nat
  speed_hz : Nat
  delay_usecs : Nat
  bits_per_word : Nat
  cs_change : Nat
  tx_nbits : Nat
  rx_nbits : Nat
  word_delay_usecs : Nat
  pad : Nat
deriving DecidableEq, Repr

/-- A freshly allocated `spi_ioc_transfer()` (ctypes zero-initialises). -/
def spi_ioc_transfer.zero : spi_ioc_transfer := ⟨0, 0, 0, 0, 0, 0, 0, 0, 0, 0, 0⟩

/-- `SPI_IOC_MESSAGE(transfer_count)`:
`IOW(_SPI_IOC_MAGIC, 0, spi_ioc_transfer * transfer_count)`, where
`ctypes.sizeof` of the array type is `transfer_count` times the record size. -/
def SPI_IOC_MESSAGE (transfer_count : Nat) : Option Nat :=
  IOW SPI_IOC_MAGIC 0 (spi_ioc_transfer_size * transfer_count)

/-- `SPI_IOC_RD_MODE32 = IOR(_SPI_IOC_MAGIC, 5, ctypes.c_uint32)` -/
def SPI_IOC_RD_MODE32 : Option Nat := IOR SPI_IOC_MAGIC 5 4

/-- `SPI_IOC_WR_MODE32 = IOW(_SPI_IOC_MAGIC, 5, ctypes.c_uint32)` -/
def SPI_IOC_WR_MODE32 : Option Nat := IOW SPI_IOC_MAGIC 5 4

/-! ## __init__.py -/

/-- `_SPI_IOC_MESSAGE_1 = SPI_IOC_MESSAGE(1)`, computed once at import. -/
def SPI_IOC_MESSAGE_1 : Option Nat := SPI_IOC_MESSAGE 1

/-- A Python object exposing the buffer protocol (`bytes`, `bytearray`,
`memoryview`, ...).  `data` is its byte content (so `len(obj) = data.length`),
`writable` tells whether `ctypes.c_char.from_buffer` can borrow it
(`bytes` is not writable), and `addr` is the address of its first byte. -/
structure PyBuffer where
  data : List Nat
  writable : Bool
  addr : Nat
deriving DecidableEq, Repr

def PyBuffer.len (b : PyBuffer) : Nat := b.data.length

/-- The Python exceptions the transfer layer can raise at construction time:
`ValueError("neither tx_buf nor rx_buf was provided")`,
`ValueError("mismatched lengths")`,
`TypeError` from `ctypes.c_char.from_buffer` on a read-only buffer, and
`ValueError("Buffer size too small")` from `from_buffer` on an empty buffer;
`encodingOverflow` is the `AssertionError` of the ioctl request encoder when
the payload size exceeds the 14-bit size field. -/
inductive SPIErr where
  | missingBuffer
  | mismatchedLengths
  | immutableBuffer
  | bufferTooSmall
  | encodingOverflow
deriving DecidableEq, Repr

/-- The keyword arguments of `SPITransfer.__init__`, plus `copyAddr`: the
address `ctypes.create_string_buffer` would return for the defensive copy of
a non-borrowable `tx_buf` (environment-supplied, unused on other paths). -/
structure SPITransferKW where
  tx_buf : Option PyBuffer
  rx_buf : Option PyBuffer
  speed_hz : Nat
  bits_per_word : Nat
  delay_usecs : Nat
  cs_change : Bool
  tx_nbits : Nat
  rx_nbits : Nat
  word_delay_usecs : Nat
  copyAddr : Nat
deriving DecidableEq, Repr

/-- Keyword defaults of `SPITransfer.__init__`: everything absent or zero. -/
def SPITransferKW.default : SPITransferKW :=
  ⟨none, none, 0, 0, 0, false, 0, 0, 0, 0⟩

/-- The state of a constructed `SPITransfer` object: `_tx_buf`, `_rx_buf`
(the caller's original objects) and `_transfer` (the populated record). -/
structure SPITransferObj where
  tx_buf : Option PyBuffer
  rx_buf : Option PyBuffer
  record : spi_ioc_transfer
deriving DecidableEq, Repr

/-- `ctypes.c_char.from_buffer(b)`: raises `TypeError` when the buffer is
read-only, `ValueError` when it is smaller than one byte, and otherwise
yields the address of its first byte. -/
def c_char_from_buffer (b : PyBuffer) : Except SPIErr Nat :=
  if ¬ b.writable then .error .immutableBuffer
  else if b.len = 0 then .error .bufferTooSmall
  else .ok b.addr

/-- The field assignments at the end of `SPITransfer.__init__`: every field
of the record is overwritten with its ctypes-truncated value, except `pad`,
which is never assigned and keeps the value it had in `init`. -/
def populateRecord (init : spi_ioc_transfer) (txAddr rxAddr length : Nat)
    (kw : SPITransferKW) : spi_ioc_transfer :=
  ⟨txAddr % 2 ^ 64, rxAddr % 2 ^ 64, length % 2 ^ 32, kw.speed_hz % 2 ^ 32,
   kw.delay_usecs % 2 ^ 16, kw.bits_per_word % 2 ^ 8,
   (if kw.cs_change then 1 else 0), kw.tx_nbits % 2 ^ 8, kw.rx_nbits % 2 ^ 8,
   kw.word_delay_usecs % 2 ^ 8, init.pad⟩

/-- The `try: ... except TypeError: ...` block of `SPITransfer.__init__`:
borrow `tx_buf` by reference; on `TypeError` (read-only object) fall back to
the defensive copy, whose address is `copyAddr`; other exceptions
(`ValueError` on an empty buffer) propagate. -/
def resolve_tx (tx : PyBuffer) (copyAddr : Nat) : Except SPIErr Nat :=
  match c_char_from_buffer tx with
  | .error .immutableBuffer => .ok copyAddr
  | .error e => .error e
  | .ok a => .ok a

/-- `SPITransfer.__init__`.  `transfer` is the record to populate
(`none` means a fresh zero-initialised `spi_ioc_transfer()`).  Control flow
follows the source: resolve `tx_buf` first (with the defensive-copy fallback
when `from_buffer` raises `TypeError`), then `rx_buf` (which must be
borrowable: its `from_buffer` errors propagate), then the length check. -/
def SPITransfer.make (kw : SPITransferKW) (transfer : Option spi_ioc_transfer) :
    Except SPIErr SPITransferObj :=
  let init := transfer.getD spi_ioc_transfer.zero
  match kw.tx_buf with
  | none =>
    match kw.rx_buf with
    | none => .error .missingBuffer
    | some rx =>
      match c_char_from_buffer rx with
      | .error e => .error e
      | .ok rxAddr =>
        .ok ⟨kw.tx_buf, kw.rx_buf, populateRecord init 0 rxAddr rx.len kw⟩
  | some tx =>
    match resolve_tx tx kw.copyAddr with
    | .error e => .error e
    | .ok txAddr =>
      match kw.rx_buf with
      | none =>
        .ok ⟨kw.tx_buf, kw.rx_buf, populateRecord init txAddr 0 tx.len kw⟩
      | some rx =>
        match c_char_from_buffer rx with
        | .error e => .error e
        | .ok rxAddr =>
          if rx.len ≠ tx.len then .error .mismatchedLengths
          else .ok ⟨kw.tx_buf, kw.rx_buf,
            populateRecord init txAddr rxAddr tx.len kw⟩

/-- A Python attribute value of a `SPITransfer` instance. -/
inductive PyVal where
  | buf : Option PyBuffer → PyVal
  | record : spi_ioc_transfer → PyVal
deriving DecidableEq, Repr

/-- Attribute lookup on a `SPITransfer` instance.  The class defines exactly
the properties `tx_buf`, `rx_buf` and `transfer` (backed by the instance
attributes `_tx_buf`, `_rx_buf`, `_transfer`); any other name raises
`AttributeError`, modelled as `none`. -/
def SPITransferObj.getattr (t : SPITransferObj) (name : String) : Option PyVal :=
  if name = "tx_buf" ∨ name = "_tx_buf" then some (.buf t.tx_buf)
  else if name = "rx_buf" ∨ name = "_rx_buf" then some (.buf t.rx_buf)
  else if name = "transfer" ∨ name = "_transfer" then some (.record t.record)
  else none

/-- The state of a constructed `SPITransferList`: `_length`,
`_transfer_list` (the contiguous ctypes record array — element `i` is the
very record object `SPITransfer` number `i` populated, since each
constructor was handed its slot), `_spi_transfer_list`, `_ioctl_request`. -/
structure SPITransferListObj where
  length : Nat
  transfer_list : List spi_ioc_transfer
  spi_transfer_list : List SPITransferObj
  ioctl_request : Nat
deriving DecidableEq, Repr

/-- The `for ... in zip(...)` loop of `SPITransferList.__init__`: construct
the transfers in program order, propagating the first construction error. -/
def mapExcept {α β ε : Type} (f : α → Except ε β) : List α → Except ε (List β)
  | [] => .ok []
  | x :: xs =>
    match f x with
    | .error e => .error e
    | .ok y =>
      match mapExcept f xs with
      | .error e => .error e
      | .ok ys => .ok (y :: ys)

/-- `SPITransferList.__init__`: allocate `(spi_ioc_transfer * length)()`
(zero-initialised slots), construct one `SPITransfer` per element of
`kw_list` in order, each writing through its own slot, then compute
`SPI_IOC_MESSAGE(length)`. -/
def SPITransferList.make (kw_list : List SPITransferKW) :
    Except SPIErr SPITransferListObj :=
  match mapExcept (fun kw => SPITransfer.make kw (some spi_ioc_transfer.zero)) kw_list with
  | .error e => .error e
  | .ok transfers =>
    match SPI_IOC_MESSAGE kw_list.length with
    | none => .error .encodingOverflow
    | some req =>
      .ok ⟨kw_list.length, transfers.map (fun t => t.record), transfers, req⟩

/-- `SPITransferList.ioctl_args`. -/
def SPITransferListObj.ioctl_args (l : SPITransferListObj) :
    Nat × List spi_ioc_transfer :=
  (l.ioctl_request, l.transfer_list)

/-- `SPIBus.submitTransferList` after a successful ioctl: the returned
generator evaluates `x.rx_transfer` for each contained `SPITransfer` `x`. -/
def SPIBus.submitTransferList (transfer_list : SPITransferListObj) :
    List (Option PyVal) :=
  transfer_list.spi_transfer_list.map (fun x => x.getattr "rx_transfer")

/-- `SPIBus.transfer` after a successful ioctl: construct a single
`SPITransfer` (with a fresh record), submit it with `_SPI_IOC_MESSAGE_1`,
and return `transfer.rx_buf`. -/
def SPIBus.transfer (kw : SPITransferKW) : Except SPIErr (Option PyBuffer) :=
  match SPITransfer.make kw none with
  | .error e => .error e
  | .ok t => .ok t.rx_buf

/-! ### Bus configuration round trips

The kernel-side device settings and the wrapper's typed ioctl calls.  A
setter passes a `ctypes.c_uintN(value)` (which truncates to N bytes); the
kernel stores it.  A getter allocates a ctypes result object and issues the
read request; the kernel writes the full field, but CPython's `fcntl.ioctl`
copies back only `sizeof(result)` bytes into the result object, so on a
little-endian platform the value read is the field reduced modulo the result
object's width. -/

structure DeviceState where
  bits_per_word : Nat
  max_speed_hz : Nat
  mode : Nat
deriving DecidableEq, Repr

/-- `bits_per_word.setter`: `self._ioctl(SPI_IOC_WR_BITS_PER_WORD, ctypes.c_uint8(value))`. -/
def SPIBus.set_bits_per_word (st : DeviceState) (value : Nat) : DeviceState :=
  ⟨value % 2 ^ 8, st.max_speed_hz, st.mode⟩

/-- `bits_per_word` getter: reads into a `ctypes.c_uint8` result. -/
def SPIBus.get_bits_per_word (st : DeviceState) : Nat :=
  st.bits_per_word % 2 ^ 8

/-- `speed_hz.setter`: `self._ioctl(SPI_IOC_WR_MAX_SPEED_HZ, ctypes.c_uint32(value))`. -/
def SPIBus.set_speed_hz (st : DeviceState) (value : Nat) : DeviceState :=
  ⟨st.bits_per_word, value % 2 ^ 32, st.mode⟩

/-- `speed_hz` getter: reads into a `ctypes.c_uint32` result. -/
def SPIBus.get_speed_hz (st : DeviceState) : Nat :=
  st.max_speed_hz % 2 ^ 32

/-- `spi_mode.setter`: `self._ioctl(SPI_IOC_WR_MODE32, ctypes.c_uint32(value))`. -/
def SPIBus.set_spi_mode (st : DeviceState) (value : Nat) : DeviceState :=
  ⟨st.bits_per_word, st.max_speed_hz, value % 2 ^ 32⟩

/-- `spi_mode` getter: issues `SPI_IOC_RD_MODE32` (the kernel writes the full
32-bit mode field) but allocates `result = ctypes.c_uint8()`, so only the low
byte is copied back into `result` and returned. -/
def SPIBus.get_spi_mode (st : DeviceState) : Nat :=
  st.mode % 2 ^ 8

/-! ### Disabled stream operations -/

/-- `errno.ENOTSUP` on Linux. -/
def ENOTSUP : Nat := 95

/-- The visible state of a `SPIBus` handle for the stream operations (the
file-descriptor layer is an external collaborator; `seek`, `tell` and
`truncate` never consult it). -/
structure BusHandleState where
  closed : Bool
  fd : Nat
deriving DecidableEq, Repr

/-- `SPIBus.seek`: `raise OSError(errno.ENOTSUP)`. -/
def SPIBus.seek (_self : BusHandleState) (_pos : Int) (_whence : Nat) :
    Except Nat Int :=
  .error ENOTSUP

/-- `SPIBus.tell`: `raise OSError(errno.ENOTSUP)`. -/
def SPIBus.tell (_self : BusHandleState) : Except Nat Int :=
  .error ENOTSUP

/-- `SPIBus.truncate`: `raise OSError(errno.ENOTSUP)`. -/
def SPIBus.truncate (_self : BusHandleState) (_size : Option Nat) :
    Except Nat Nat :=
  .error ENOTSUP

/-! ## Helper lemmas -/

theorem spi_ioc_transfer_size_eq : spi_ioc_transfer_size = 32 := by decide

/-- Transmit-address resolution never fails when the buffer is either
read-only (defensive copy) or non-empty (plain borrow). -/
theorem resolve_tx_ok (tx : PyBuffer) (ca : Nat)
    (h : tx.writable = true → 0 < tx.len) :
    resolve_tx tx ca = .ok (if tx.writable then tx.addr else ca) := by
  by_cases htw : tx.writable
  · simp [resolve_tx, c_char_from_buffer, htw, Nat.pos_iff_ne_zero.mp (h htw)]
  · simp [resolve_tx, c_char_from_buffer, htw]

/-- Successful construction with both buffers present: the receive buffer is
borrowable and the lengths agree.  The transmit address is the buffer's own
address on the fast path and the defensive-copy address on the slow path. -/
theorem make_ok_both (tx rx : PyBuffer) (sp bpw du : Nat) (cs : Bool)
    (txn rxn wdu ca : Nat) (tr : Option spi_ioc_transfer)
    (hrw : rx.writable = true) (hlen : tx.len = rx.len) (hpos : 0 < tx.len) :
    SPITransfer.make ⟨some tx, some rx, sp, bpw, du, cs, txn, rxn, wdu, ca⟩ tr =
      .ok ⟨some tx, some rx,
        populateRecord (tr.getD spi_ioc_transfer.zero)
          (if tx.writable then tx.addr else ca) rx.addr tx.len
          ⟨some tx, some rx, sp, bpw, du, cs, txn, rxn, wdu, ca⟩⟩ := by
  have hrpos : 0 < rx.len := hlen ▸ hpos
  have htx : resolve_tx tx ca = .ok (if tx.writable then tx.addr else ca) :=
    resolve_tx_ok tx ca (fun _ => hpos)
  simp [SPITransfer.make, htx, c_char_from_buffer, hrw,
    Nat.pos_iff_ne_zero.mp hrpos, hlen]

/-- Mismatched lengths with both buffers present and address-resolvable:
construction fails with `ValueError("mismatched lengths")`. -/
theorem make_mismatched (tx rx : PyBuffer) (sp bpw du : Nat) (cs : Bool)
    (txn rxn wdu ca : Nat) (tr : Option spi_ioc_transfer)
    (hrw : rx.writable = true) (hrpos : 0 < rx.len)
    (htxp : tx.writable = true → 0 < tx.len) (hne : tx.len ≠ rx.len) :
    SPITransfer.make ⟨some tx, some rx, sp, bpw, du, cs, txn, rxn, wdu, ca⟩ tr =
      .error .mismatchedLengths := by
  have htx : resolve_tx tx ca = .ok (if tx.writable then tx.addr else ca) :=
    resolve_tx_ok tx ca htxp
  have hne2 : ¬ (rx.len = tx.len) := fun h => hne h.symm
  simp [SPITransfer.make, htx, c_char_from_buffer, hrw,
    Nat.pos_iff_ne_zero.mp hrpos, hne2]

/-- `pad` is never assigned by `SPITransfer.__init__`: any successfully
populated record keeps the `pad` of the record it was given. -/
theorem make_pad_eq (kw : SPITransferKW) (tr : Option spi_ioc_transfer)
    (t : SPITransferObj) (h : SPITransfer.make kw tr = .ok t) :
    t.record.pad = (tr.getD spi_ioc_transfer.zero).pad := by
  cases htxb : kw.tx_buf with
  | none =>
    cases hrxb : kw.rx_buf with
    | none => simp [SPITransfer.make, htxb, hrxb] at h
    | some rx =>
      cases hc : c_char_from_buffer rx with
      | error e => simp [SPITransfer.make, htxb, hrxb, hc] at h
      | ok a =>
        simp [SPITransfer.make, htxb, hrxb, hc] at h
        rw [← h]
        rfl
  | some tx =>
    cases hr : resolve_tx tx kw.copyAddr with
    | error e => simp [SPITransfer.make, htxb, hr] at h
    | ok txAddr =>
      cases hrxb : kw.rx_buf with
      | none =>
        simp [SPITransfer.make, htxb, hr, hrxb] at h
        rw [← h]
        rfl
      | some rx =>
        cases hc : c_char_from_buffer rx with
        | error e => simp [SPITransfer.make, htxb, hr, hrxb, hc] at h
        | ok a =>
          by_cases hlen : rx.len = tx.len
          · simp [SPITransfer.make, htxb, hr, hrxb, hc, hlen] at h
            rw [← h]
            rfl
          · simp [SPITransfer.make, htxb, hr, hrxb, hc, hlen] at h

/-- `mapExcept` success gives a pointwise relation in program order. -/
theorem mapExcept_ok_forall2 {α β ε : Type} (f : α → Except ε β) :
    ∀ (xs : List α) (ys : List β), mapExcept f xs = .ok ys →
      List.Forall₂ (fun a b => f a = .ok b) xs ys := by
  intro xs
  induction xs with
  | nil =>
    intro ys h
    cases h
    exact List.Forall₂.nil
  | cons x xs ih =>
    intro ys h
    unfold mapExcept at h
    cases hfx : f x with
    | error e => rw [hfx] at h; cases h
    | ok y =>
      rw [hfx] at h
      cases hxs : mapExcept f xs with
      | error e => rw [hxs] at h; cases h
      | ok ys2 =>
        rw [hxs] at h
        cases h
        exact List.Forall₂.cons hfx (ih ys2 hxs)

/-- Round trip of the word-size setting: the 8-bit write/read pair preserves
every value representable in one byte. -/
theorem bits_per_word_round_trip (st : DeviceState) (v : Nat) (h : v < 2 ^ 8) :
    SPIBus.get_bits_per_word (SPIBus.set_bits_per_word st v) = v := by
  simp only [SPIBus.get_bits_per_word, SPIBus.set_bits_per_word]
  omega

/-- Round trip of the clock-speed setting: the 32-bit write/read pair
preserves every value representable in four bytes. -/
theorem speed_hz_round_trip (st : DeviceState) (v : Nat) (h : v < 2 ^ 32) :
    SPIBus.get_speed_hz (SPIBus.set_speed_hz st v) = v := by
  simp only [SPIBus.get_speed_hz, SPIBus.set_speed_hz]
  omega

/-! ## Claims -/

/-- The receive buffer of the C1 scenario: `bytearray(4)` at address 4096. -/
def c1_rx : PyBuffer := ⟨[0, 0, 0, 0], true, 4096⟩

/-- The C1 scenario batch element: a receive-only transfer. -/
def c1_kw : SPITransferKW := ⟨none, some c1_rx, 0, 0, 0, false, 0, 0, 0, 0⟩

/-- Claim C1: `submitTransferList` is documented to return, for each element
in program order, a view over that element's receive buffer.  The code
instead evaluates `x.rx_transfer` on each contained `SPITransfer`, an
attribute the class never defines (its properties are `tx_buf`, `rx_buf`,
`transfer`), so consuming the returned generator raises `AttributeError`
(modelled as `none`) instead of yielding the `rx_buf` views. -/
theorem c1_submitTransferList_rx_transfer_missing :
    (∀ t : SPITransferObj, t.getattr "rx_transfer" = none) ∧
    (∃ b, SPITransferList.make [c1_kw] = .ok b ∧
      SPIBus.submitTransferList b = [none] ∧
      b.spi_transfer_list.map (fun t => t.getattr "rx_buf") =
        [some (PyVal.buf (some c1_rx))]) := by
  constructor
  · intro t
    rfl
  · exact ⟨_, rfl, rfl, rfl⟩

/-- Claim C2: the mode round trip is broken in the code.  The setter sends
the full 32-bit value with `SPI_IOC_WR_MODE32`, and the kernel-side field
does hold 256 (`SPI_TX_DUAL`, a defined flag inside the user mask), but the
getter — despite issuing the 32-bit `SPI_IOC_RD_MODE32` request — allocates a
`ctypes.c_uint8` result, so only the low byte is read back: the round trip
returns 0 instead of 256.  The word-size and speed round trips do hold (see
`bits_per_word_round_trip` and `speed_hz_round_trip`). -/
theorem c2_mode32_readback_truncated :
    (SPIBus.set_spi_mode ⟨8, 500000, 0⟩ 256).mode = 256 ∧
    256 ∈ SPIMode32_flags ∧
    256 ≤ SPI_MODE_USER_MASK ∧
    SPIBus.get_spi_mode (SPIBus.set_spi_mode ⟨8, 500000, 0⟩ 256) = 0 ∧
    SPIBus.get_spi_mode (SPIBus.set_spi_mode ⟨8, 500000, 0⟩ 256) ≠ 256 := by
  refine ⟨rfl, by decide, by decide, rfl, by decide⟩

/-- Claim C5: constructing with both buffers absent fails with
`ValueError("neither tx_buf nor rx_buf was provided")`, whatever the scalar
arguments and the target record; `SPIBus.transfer` propagates the error
without reaching its ioctl. -/
theorem c5_missing_buffer_error (sp bpw du : Nat) (cs : Bool)
    (txn rxn wdu ca : Nat) (tr : Option spi_ioc_transfer) :
    SPITransfer.make ⟨none, none, sp, bpw, du, cs, txn, rxn, wdu, ca⟩ tr =
      .error .missingBuffer ∧
    SPIBus.transfer ⟨none, none, sp, bpw, du, cs, txn, rxn, wdu, ca⟩ =
      .error .missingBuffer :=
  ⟨rfl, rfl⟩

/-- Witness for C5 at the all-default call `SPITransfer()`. -/
theorem c5_missing_buffer_error_witness :
    SPITransfer.make ⟨none, none, 0, 0, 0, false, 0, 0, 0, 0⟩ none =
      .error .missingBuffer ∧
    SPIBus.transfer ⟨none, none, 0, 0, 0, false, 0, 0, 0, 0⟩ =
      .error .missingBuffer :=
  c5_missing_buffer_error 0 0 0 false 0 0 0 0 none

/-- Claim C10: `seek`, `tell` and `truncate` raise `OSError(errno.ENOTSUP)`
for every handle state and argument, and never succeed silently. -/
theorem c10_seek_tell_truncate_not_supported (st : BusHandleState) (pos : Int)
    (whence : Nat) (size : Option Nat) :
    SPIBus.seek st pos whence = .error ENOTSUP ∧
    SPIBus.tell st = .error ENOTSUP ∧
    SPIBus.truncate st size = .error ENOTSUP ∧
    (∀ r, SPIBus.seek st pos whence ≠ .ok r) ∧
    (∀ r, SPIBus.tell st ≠ .ok r) ∧
    (∀ r, SPIBus.truncate st size ≠ .ok r) ∧
    ENOTSUP = 95 := by
  refine ⟨rfl, rfl, rfl, ?_, ?_, ?_, rfl⟩ <;>
    intro r h <;> simp [SPIBus.seek, SPIBus.tell, SPIBus.truncate] at h

/-- Witness for C10 on an open handle with file descriptor 3. -/
theorem c10_seek_tell_truncate_not_supported_witness :
    SPIBus.seek ⟨false, 3⟩ 4 0 = .error ENOTSUP ∧
    SPIBus.tell ⟨false, 3⟩ = .error ENOTSUP ∧
    SPIBus.truncate ⟨false, 3⟩ none = .error ENOTSUP :=
  ⟨(c10_seek_tell_truncate_not_supported ⟨false, 3⟩ 4 0 none).1,
   (c10_seek_tell_truncate_not_supported ⟨false, 3⟩ 4 0 none).2.1,
   (c10_seek_tell_truncate_not_supported ⟨false, 3⟩ 4 0 none).2.2.1⟩

/-- The C3 scenario transmit buffer: the immutable `b"\x01\x02\x03\x04"`.
Its own address is modelled as 0 to make visible that the populated record's
transmit address comes from the defensive copy, never from the `bytes`
object itself. -/
def c3_tx : PyBuffer := ⟨[1, 2, 3, 4], false, 0⟩

/-- The C3 scenario receive buffer: `bytearray(4)` at address 4096. -/
def c3_rx : PyBuffer := ⟨[0, 0, 0, 0], true, 4096⟩

/-- The C3 scenario keyword arguments (`speed_hz=1000000`); the defensive
copy of `c3_tx` lands at address 8192. -/
def c3_kw : SPITransferKW :=
  ⟨some c3_tx, some c3_rx, 1000000, 0, 0, false, 0, 0, 0, 8192⟩

/-- Claim C3: for every pair of present buffers with a borrowable receive
buffer and equal non-zero length (representable in the record's 4-byte `len`
field), construction succeeds and the record's `len` is that shared length;
in the concrete scenario the record has `len = 4`, `speed_hz = 1000000`,
non-zero transmit and receive addresses, and `SPIBus.transfer` returns the
caller's own `rx_buf`. -/
theorem c3_equal_length_construction :
    (∀ (tx rx : PyBuffer) (sp bpw du : Nat) (cs : Bool) (txn rxn wdu ca : Nat),
      rx.writable = true → tx.len = rx.len → 0 < tx.len → tx.len < 2 ^ 32 →
      ∃ t, SPITransfer.make ⟨some tx, some rx, sp, bpw, du, cs, txn, rxn, wdu, ca⟩
          none = .ok t ∧ t.record.len = tx.len) ∧
    (∃ t, SPITransfer.make c3_kw none = .ok t ∧
      t.record.len = 4 ∧ t.record.speed_hz = 1000000 ∧
      t.record.tx_buf = 8192 ∧ t.record.tx_buf ≠ 0 ∧
      t.record.rx_buf = 4096 ∧ t.record.rx_buf ≠ 0) ∧
    SPIBus.transfer c3_kw = .ok (some c3_rx) := by
  refine ⟨?_, ?_, rfl⟩
  · intro tx rx sp bpw du cs txn rxn wdu ca hrw hlen hpos hlt
    refine ⟨_, make_ok_both tx rx sp bpw du cs txn rxn wdu ca none hrw hlen hpos, ?_⟩
    exact Nat.mod_eq_of_lt hlt
  · exact ⟨_, rfl, rfl, rfl, rfl, by decide, rfl, by decide⟩

/-- Witness for the universal part of C3: two aliasable one-byte buffers. -/
theorem c3_equal_length_construction_witness :
    (0 : Nat) < 1 ∧
    ∃ t, SPITransfer.make ⟨some ⟨[7], true, 21⟩, some ⟨[9], true, 21⟩,
        0, 0, 0, false, 0, 0, 0, 0⟩ none = .ok t ∧
      t.record.len = (⟨[7], true, 21⟩ : PyBuffer).len :=
  ⟨by decide,
    c3_equal_length_construction.1 ⟨[7], true, 21⟩ ⟨[9], true, 21⟩
      0 0 0 false 0 0 0 0 rfl rfl (by decide) (by decide)⟩

/-- Counterexample to claim C4 as stated: with a read-only receive buffer the
immutable-buffer `TypeError` from `ctypes.c_char.from_buffer` is raised
before the lengths are ever compared, so a mismatched pair does not fail
with the length-mismatch error. -/
theorem c4_counterexample_immutable_rx_preempts :
    (⟨[1], true, 11⟩ : PyBuffer).len ≠ (⟨[2, 3], false, 12⟩ : PyBuffer).len ∧
    SPITransfer.make ⟨some ⟨[1], true, 11⟩, some ⟨[2, 3], false, 12⟩,
        0, 0, 0, false, 0, 0, 0, 13⟩ none = .error .immutableBuffer ∧
    SPIErr.immutableBuffer ≠ SPIErr.mismatchedLengths :=
  ⟨by decide, rfl, by decide⟩

/-- Claim C4 as amended: with both buffers present, mismatched declared
lengths fail with `ValueError("mismatched lengths")` provided each buffer
passes its own address-resolution step first (the receive buffer borrowable
and non-empty, the transmit buffer non-empty when mutable); and the same
memory object may back both sides (full-duplex in place) without error. -/
theorem c4_amended_mismatch_error (tx rx : PyBuffer) (sp bpw du : Nat)
    (cs : Bool) (txn rxn wdu ca : Nat) (tr : Option spi_ioc_transfer) :
    (rx.writable = true → 0 < rx.len → (tx.writable = true → 0 < tx.len) →
      tx.len ≠ rx.len →
      SPITransfer.make ⟨some tx, some rx, sp, bpw, du, cs, txn, rxn, wdu, ca⟩ tr =
        .error .mismatchedLengths) ∧
    (rx.writable = true → 0 < rx.len → rx.len < 2 ^ 32 → rx.addr < 2 ^ 64 →
      ∃ t, SPITransfer.make ⟨some rx, some rx, sp, bpw, du, cs, txn, rxn, wdu, ca⟩ tr =
          .ok t ∧ t.record.len = rx.len ∧ t.record.tx_buf = rx.addr ∧
        t.record.rx_buf = rx.addr) := by
  constructor
  · intro hrw hrpos htxp hne
    exact make_mismatched tx rx sp bpw du cs txn rxn wdu ca tr hrw hrpos htxp hne
  · intro hrw hrpos hrlt halt
    refine ⟨_, make_ok_both rx rx sp bpw du cs txn rxn wdu ca tr hrw rfl hrpos,
      Nat.mod_eq_of_lt hrlt, ?_, ?_⟩
    · show (if rx.writable then rx.addr else ca) % 2 ^ 64 = rx.addr
      rw [hrw]
      simp only [if_true]
      exact Nat.mod_eq_of_lt halt
    · exact Nat.mod_eq_of_lt halt

/-- Witness for C4's amended statement: a 1-byte/2-byte mutable pair
mismatches, and a single mutable buffer aliases both sides. -/
theorem c4_amended_mismatch_error_witness :
    SPITransfer.make ⟨some ⟨[1], true, 11⟩, some ⟨[2, 3], true, 12⟩,
        0, 0, 0, false, 0, 0, 0, 13⟩ none = .error .mismatchedLengths ∧
    (∃ t, SPITransfer.make ⟨some ⟨[5], true, 11⟩, some ⟨[5], true, 11⟩,
        0, 0, 0, false, 0, 0, 0, 13⟩ none = .ok t ∧
      t.record.len = (⟨[5], true, 11⟩ : PyBuffer).len ∧
      t.record.tx_buf = 11 ∧ t.record.rx_buf = 11) :=
  ⟨(c4_amended_mismatch_error ⟨[1], true, 11⟩ ⟨[2, 3], true, 12⟩
      0 0 0 false 0 0 0 13 none).1 rfl (by decide) (fun _ => by decide) (by decide),
   (c4_amended_mismatch_error ⟨[5], true, 11⟩ ⟨[5], true, 11⟩
      0 0 0 false 0 0 0 13 none).2 rfl (by decide) (by decide) (by decide)⟩

/-- Claim C6: an immutable sequence is rejected as `rx_buf` (with the
immutable-buffer `TypeError`, whatever the transmit side, as long as the
transmit side passes its own resolution step) but accepted as `tx_buf`
via the defensive-copy path, leaving a valid non-zero transmit address in
the record. -/
theorem c6_immutable_rx_rejected_tx_copied (s : PyBuffer) (sp bpw du : Nat)
    (cs : Bool) (txn rxn wdu ca : Nat) (tr : Option spi_ioc_transfer)
    (hs : s.writable = false) :
    SPITransfer.make ⟨none, some s, sp, bpw, du, cs, txn, rxn, wdu, ca⟩ tr =
      .error .immutableBuffer ∧
    (∀ tx : PyBuffer, (tx.writable = true → 0 < tx.len) →
      SPITransfer.make ⟨some tx, some s, sp, bpw, du, cs, txn, rxn, wdu, ca⟩ tr =
        .error .immutableBuffer) ∧
    (0 < ca → ca < 2 ^ 64 →
      ∃ t, SPITransfer.make ⟨some s, none, sp, bpw, du, cs, txn, rxn, wdu, ca⟩ tr =
          .ok t ∧ t.record.tx_buf = ca ∧ t.record.tx_buf ≠ 0) := by
  refine ⟨?_, ?_, ?_⟩
  · simp [SPITransfer.make, c_char_from_buffer, hs]
  · intro tx htxp
    have htx := resolve_tx_ok tx ca htxp
    simp [SPITransfer.make, htx, c_char_from_buffer, hs]
  · intro hca hcalt
    have htx : resolve_tx s ca = .ok ca := by
      simp [resolve_tx, c_char_from_buffer, hs]
    refine ⟨⟨some s, none,
        populateRecord (tr.getD spi_ioc_transfer.zero) ca 0 s.len
          ⟨some s, none, sp, bpw, du, cs, txn, rxn, wdu, ca⟩⟩, ?_, ?_, ?_⟩
    · simp [SPITransfer.make, htx]
    · exact Nat.mod_eq_of_lt hcalt
    · show ca % 2 ^ 64 ≠ 0
      rw [Nat.mod_eq_of_lt hcalt]
      omega

/-- Witness for C6: the two-byte immutable sequence `b"\x01\x02"`. -/
theorem c6_immutable_rx_rejected_tx_copied_witness :
    SPITransfer.make ⟨none, some ⟨[1, 2], false, 0⟩, 0, 0, 0, false, 0, 0, 0, 64⟩
      none = .error .immutableBuffer ∧
    (∃ t, SPITransfer.make ⟨some ⟨[1, 2], false, 0⟩, none,
        0, 0, 0, false, 0, 0, 0, 64⟩ none = .ok t ∧
      t.record.tx_buf = 64 ∧ t.record.tx_buf ≠ 0) :=
  ⟨(c6_immutable_rx_rejected_tx_copied ⟨[1, 2], false, 0⟩
      0 0 0 false 0 0 0 64 none rfl).1,
   (c6_immutable_rx_rejected_tx_copied ⟨[1, 2], false, 0⟩
      0 0 0 false 0 0 0 64 none rfl).2.2 (by decide) (by decide)⟩

/-- Claim C7: the request encoder is a pure function (equal counts give equal
codes), the single-transfer code of `SPIBus.transfer` is the N = 1 batch
code, and every encodable batch code differs from the 1-element code only in
the payload-size field, which scales by the element count. -/
theorem c7_ioctl_message_encoding :
    SPI_IOC_MESSAGE_1 = SPI_IOC_MESSAGE 1 ∧
    (∀ m n : Nat, m = n → SPI_IOC_MESSAGE m = SPI_IOC_MESSAGE n) ∧
    (∀ n c c1, SPI_IOC_MESSAGE n = some c → SPI_IOC_MESSAGE 1 = some c1 →
      ioc_size c = n * ioc_size c1 ∧ ioc_dir c = ioc_dir c1 ∧
      ioc_type c = ioc_type c1 ∧ ioc_nr c = ioc_nr c1) := by
  refine ⟨rfl, fun m n h => h ▸ rfl, ?_⟩
  intro n c c1 h h1
  have e1 : c1 = 1075866368 := by
    rw [show SPI_IOC_MESSAGE 1 = some 1075866368 from rfl] at h1
    exact (Option.some.inj h1).symm
  by_cases hn : spi_ioc_transfer_size * n ≤ IOC_SIZEMASK
  · have hcondall : IOC_WRITE ≤ IOC_DIRMASK ∧ SPI_IOC_MAGIC ≤ IOC_TYPEMASK ∧
        0 ≤ IOC_NRMASK ∧ spi_ioc_transfer_size * n ≤ IOC_SIZEMASK :=
      ⟨by decide, by decide, by decide, hn⟩
    have heq : SPI_IOC_MESSAGE n = some (IOC_WRITE * 2 ^ IOC_DIRSHIFT +
        spi_ioc_transfer_size * n * 2 ^ IOC_SIZESHIFT +
        SPI_IOC_MAGIC * 2 ^ IOC_TYPESHIFT + 0 * 2 ^ IOC_NRSHIFT) := by
      unfold SPI_IOC_MESSAGE IOW IOC
      rw [if_pos hcondall]
    rw [heq] at h
    have hc : c = 1073741824 + 32 * n * 65536 + 27392 := by
      have h2 := (Option.some.inj h).symm
      rw [spi_ioc_transfer_size_eq] at h2
      norm_num [IOC_WRITE, IOC_DIRSHIFT, IOC_SIZESHIFT, IOC_TYPESHIFT,
        IOC_NRSHIFT, IOC_SIZEBITS, IOC_TYPEBITS, IOC_NRBITS, SPI_IOC_MAGIC] at h2
      omega
    have hn32 : 32 * n ≤ 16383 := by
      rw [spi_ioc_transfer_size_eq] at hn
      simpa [IOC_SIZEMASK, IOC_SIZEBITS] using hn
    subst hc e1
    refine ⟨?_, ?_, ?_, ?_⟩ <;>
      simp only [ioc_size, ioc_dir, ioc_type, ioc_nr, IOC_SIZESHIFT,
        IOC_DIRSHIFT, IOC_TYPESHIFT, IOC_NRSHIFT, IOC_SIZEBITS, IOC_DIRBITS,
        IOC_TYPEBITS, IOC_NRBITS] <;> norm_num <;> omega
  · have heq : SPI_IOC_MESSAGE n = none := by
      unfold SPI_IOC_MESSAGE IOW IOC
      rw [if_neg]
      intro hcond
      exact hn hcond.2.2.2
    rw [heq] at h
    cases h

/-- Witness for C7 at N = 3: the batch code carries a 96-byte payload size
(three 32-byte records) and the same direction, magic and number as the
1-element code. -/
theorem c7_ioctl_message_encoding_witness :
    ioc_size 1080060672 = 3 * ioc_size 1075866368 ∧
    ioc_dir 1080060672 = ioc_dir 1075866368 ∧
    ioc_type 1080060672 = ioc_type 1075866368 ∧
    ioc_nr 1080060672 = ioc_nr 1075866368 :=
  c7_ioctl_message_encoding.2.2 3 1080060672 1075866368 rfl rfl

/-- Claim C8: the record layout.  The computed field offsets are gapless and
match the spec's order; the widths are 8, 8, 4, 4, 2 and six single bytes;
the total size is 32 bytes; and the reserved `pad` byte, never assigned by
`SPITransfer.__init__`, stays zero in every record populated through either
entry point (a fresh record for `SPIBus.transfer`, a zero-initialised array
slot for `SPITransferList`). -/
theorem c8_record_layout :
    layoutOffsets 0 spi_ioc_transfer_fields =
      [("tx_buf", 0), ("rx_buf", 8), ("len", 16), ("speed_hz", 20),
       ("delay_usecs", 24), ("bits_per_word", 26), ("cs_change", 27),
       ("tx_nbits", 28), ("rx_nbits", 29), ("word_delay_usecs", 30),
       ("pad", 31)] ∧
    spi_ioc_transfer_fields.map (fun f => (f.1, f.2.1)) =
      [("tx_buf", 8), ("rx_buf", 8), ("len", 4), ("speed_hz", 4),
       ("delay_usecs", 2), ("bits_per_word", 1), ("cs_change", 1),
       ("tx_nbits", 1), ("rx_nbits", 1), ("word_delay_usecs", 1),
       ("pad", 1)] ∧
    spi_ioc_transfer_size = 32 ∧
    (∀ kw tr t, SPITransfer.make kw tr = .ok t →
      t.record.pad = (tr.getD spi_ioc_transfer.zero).pad) ∧
    (∀ kw t, SPITransfer.make kw none = .ok t → t.record.pad = 0) ∧
    (∀ kw t, SPITransfer.make kw (some spi_ioc_transfer.zero) = .ok t →
      t.record.pad = 0) := by
  refine ⟨by decide, by decide, by decide, make_pad_eq, ?_, ?_⟩
  · intro kw t h
    exact make_pad_eq kw none t h
  · intro kw t h
    exact make_pad_eq kw (some spi_ioc_transfer.zero) t h

/-- The constructed object of the C8 witness: a one-byte receive-only
transfer whose populated record has a zero `pad`. -/
def c8_w_obj : SPITransferObj :=
  ⟨none, some ⟨[0], true, 5⟩, ⟨0, 5, 1, 0, 0, 0, 0, 0, 0, 0, 0⟩⟩

/-- Witness for C8's pad clauses at a concrete construction. -/
theorem c8_record_layout_witness :
    SPITransfer.make ⟨none, some ⟨[0], true, 5⟩, 0, 0, 0, false, 0, 0, 0, 0⟩
      none = .ok c8_w_obj ∧
    c8_w_obj.record.pad = 0 :=
  ⟨rfl, c8_record_layout.2.2.2.2.1
    ⟨none, some ⟨[0], true, 5⟩, 0, 0, 0, false, 0, 0, 0, 0⟩ c8_w_obj rfl⟩

/-- The C9 scenario: three receive-only descriptors, the first two with
`cs_change=True`, the third with `cs_change=False`. -/
def c9_kws : List SPITransferKW :=
  [⟨none, some ⟨[0], true, 1⟩, 0, 0, 0, true, 0, 0, 0, 0⟩,
   ⟨none, some ⟨[0], true, 2⟩, 0, 0, 0, true, 0, 0, 0, 0⟩,
   ⟨none, some ⟨[0], true, 3⟩, 0, 0, 0, false, 0, 0, 0, 0⟩]

/-- Claim C9: a successfully built batch reports one record per parameter
set, in program order (each element the result of constructing that
element's `SPITransfer` into its zero-initialised slot, with the record
array exactly the per-element records, no extra copy), and exposes
`ioctl_args` as the batched request code for that count paired with the
record array; in the 3-element scenario the request code's payload size is
three record sizes and the `cs_change` bytes keep program order. -/
theorem c9_transfer_list_structure :
    (∀ kws l, SPITransferList.make kws = .ok l →
      l.length = kws.length ∧
      l.spi_transfer_list.length = kws.length ∧
      l.transfer_list = l.spi_transfer_list.map (fun t => t.record) ∧
      List.Forall₂ (fun kw t =>
        SPITransfer.make kw (some spi_ioc_transfer.zero) = .ok t)
        kws l.spi_transfer_list ∧
      SPI_IOC_MESSAGE kws.length = some l.ioctl_request ∧
      l.ioctl_args = (l.ioctl_request, l.transfer_list)) ∧
    (∃ l, SPITransferList.make c9_kws = .ok l ∧
      l.transfer_list.map (fun r => r.cs_change) = [1, 1, 0] ∧
      ioc_size l.ioctl_request = 3 * spi_ioc_transfer_size ∧
      l.length = 3) := by
  constructor
  · intro kws l h
    unfold SPITransferList.make at h
    cases hm : mapExcept
        (fun kw => SPITransfer.make kw (some spi_ioc_transfer.zero)) kws with
    | error e => rw [hm] at h; cases h
    | ok transfers =>
      rw [hm] at h
      cases hr : SPI_IOC_MESSAGE kws.length with
      | none => rw [hr] at h; cases h
      | some req =>
        rw [hr] at h
        cases h
        have hf := mapExcept_ok_forall2
          (fun kw => SPITransfer.make kw (some spi_ioc_transfer.zero))
          kws transfers hm
        exact ⟨rfl, hf.length_eq.symm, rfl, hf, rfl, rfl⟩
  · exact ⟨_, rfl, rfl, by decide, rfl⟩

/-- Witness for C9's universal part at the concrete 3-element scenario. -/
theorem c9_transfer_list_structure_witness :
    ∃ l, SPITransferList.make c9_kws = .ok l ∧
      l.length = c9_kws.length ∧
      l.transfer_list = l.spi_transfer_list.map (fun t => t.record) ∧
      l.ioctl_args = (l.ioctl_request, l.transfer_list) := by
  refine ⟨_, rfl, ?_⟩
  have h := c9_transfer_list_structure.1 c9_kws _ rfl
  exact ⟨h.1, h.2.2.1, h.2.2.2.2.2⟩

end Spidev2
